import Mathlib

/-!
Shallow embedding of `simple-google-mcp/main.py`, a minimal FastAPI relay
exposing `POST /gdrive/list_files` and `GET /health`.

Modelling choices:
* An HTTP request is represented by the result of `request.headers.get("Authorization")`.
* The process environment is a function from variable names to `Option String`,
  matching `os.getenv` (absent variable gives `none`).
* Python truthiness of an optional string (`not client_id`) is made explicit:
  `none` and `some ""` are falsy.
* `HTTPException` is a record of status code and detail string.  A handler
  outcome distinguishes a normal JSON return, a raised `HTTPException`
  (propagated to the framework), and the defective pattern of *returning* a
  constructed `HTTPException` object as the handler's value.
* The external Drive service (`service.files().list(...).execute()`) is an
  oracle passed to the handler; the handler also returns the list of parameter
  records it passed to that oracle, so "called exactly once with these
  parameters" is a statement about that trace.  `build('drive','v3',...)` is a
  local constructor and is modelled as always succeeding.
-/

/-- Result of `request.headers.get("Authorization")` on the inbound request. -/
structure Request where
  authorization : Option String
deriving DecidableEq

/-- The process environment as seen through `os.getenv`. -/
structure Env where
  getenv : String → Option String

/-- FastAPI `HTTPException(status_code=..., detail=...)`. -/
structure HTTPException where
  status_code : Nat
  detail : String
deriving DecidableEq

/-- The hard-coded scope list `SCOPES` from `main.py`. -/
def SCOPES : List String := [
  "https://www.googleapis.com/auth/userinfo.email",
  "openid",
  "https://www.googleapis.com/auth/calendar.readonly",
  "https://www.googleapis.com/auth/calendar.events",
  "https://www.googleapis.com/auth/drive.readonly",
  "https://www.googleapis.com/auth/drive.file",
  "https://www.googleapis.com/auth/gmail.readonly",
  "https://www.googleapis.com/auth/gmail.send",
  "https://www.googleapis.com/auth/gmail.compose",
  "https://www.googleapis.com/auth/gmail.modify",
  "https://www.googleapis.com/auth/gmail.labels",
  "https://www.googleapis.com/auth/documents.readonly",
  "https://www.googleapis.com/auth/documents",
  "https://www.googleapis.com/auth/chat.messages.readonly",
  "https://www.googleapis.com/auth/chat.spaces.readonly",
  "https://www.googleapis.com/auth/chat.memberships.readonly",
  "https://www.googleapis.com/auth/chat.messages",
  "https://www.googleapis.com/auth/spreadsheets.readonly",
  "https://www.googleapis.com/auth/spreadsheets",
  "https://www.googleapis.com/auth/forms.body",
  "https://www.googleapis.com/auth/forms.body.readonly",
  "https://www.googleapis.com/auth/forms.responses.readonly",
  "https://www.googleapis.com/auth/presentations.readonly",
  "https://www.googleapis.com/auth/presentations"]

/-- The `google.oauth2.credentials.Credentials` value constructed by
`get_credentials_from_request`. -/
structure Credentials where
  token : String
  client_id : String
  client_secret : String
  scopes : List String
deriving DecidableEq

/-- Python truthiness of an optional string: `None` and `""` are falsy. -/
def pyTruthy : Option String → Bool
  | none => false
  | some s => !(s == "")

/-- Python `s.lower()` (the header strings involved are ASCII). -/
def pyLower (s : String) : String := ⟨s.data.map Char.toLower⟩

/-- Python `s.startswith(p)`: `p` is a prefix of `s`. -/
def pyStartswith (s p : String) : Bool := p.data.isPrefixOf s.data

/-- Python `s.split(" ", 1)`: split at the first space only, keeping the
remainder intact; a string without a space yields a one-element list. -/
def pySplitOnce (s : String) : List String :=
  let pre := s.data.takeWhile (fun c => c ≠ ' ')
  match s.data.dropWhile (fun c => c ≠ ' ') with
  | [] => [String.mk pre]
  | _ :: rest => [String.mk pre, String.mk rest]

/-- Python `auth_header.split(" ", 1)[1]`.  The caller has checked that the
header starts (case-insensitively) with `"bearer "`, so index 1 exists; the
default `""` is never reached on that path. -/
def bearerToken (auth_header : String) : String :=
  ((pySplitOnce auth_header).get? 1).getD ""

/-- Embedding of `get_credentials_from_request` from `main.py`. -/
def get_credentials_from_request (request : Request) (env : Env) :
    Except HTTPException Credentials :=
  match request.authorization with
  | none => .error ⟨401, "Authorization header missing or invalid"⟩
  | some auth_header =>
    if auth_header == "" || !(pyStartswith (pyLower auth_header) "bearer ") then
      .error ⟨401, "Authorization header missing or invalid"⟩
    else
      let token := bearerToken auth_header
      let client_id := env.getenv "GOOGLE_OAUTH_CLIENT_ID"
      let client_secret := env.getenv "GOOGLE_OAUTH_CLIENT_SECRET"
      if !(pyTruthy client_id) || !(pyTruthy client_secret) then
        .error ⟨500, "Server is missing Google OAuth client configuration"⟩
      else
        .ok ⟨token, client_id.getD "", client_secret.getD "", SCOPES⟩

/-- An upstream file entry: a Python dict from field names to values. -/
abbrev FileEntry := List (String × String)

/-- The dict returned by `execute()`: it may or may not carry a `files` key
(`nextPageToken` is never read by the handler and is omitted). -/
structure DriveResponse where
  files : Option (List FileEntry)
deriving DecidableEq

/-- Parameters the handler passes to the Drive `files().list(...)` call. -/
structure ListParams where
  pageSize : Nat
  fields : String
deriving DecidableEq

/-- Outcome of the external `service.files().list(...).execute()` call:
a response dict, a raised `HTTPException`, or any other raised exception
(carrying `str(e)`). -/
inductive DriveResult where
  | success (resp : DriveResponse)
  | httpError (e : HTTPException)
  | failure (msg : String)
deriving DecidableEq

/-- The external Drive service, abstracted as an oracle receiving the
credentials and the list-call parameters. -/
abbrev DriveService := Credentials → ListParams → DriveResult

/-- Outcome of the `list_drive_files` handler: a returned JSON dict
(`{"files": files}` is `[("files", files)]`), a raised `HTTPException`, or the
defective pattern of an `HTTPException` object returned as the value. -/
inductive ListFilesResult where
  | ok (body : List (String × List FileEntry))
  | raised (e : HTTPException)
  | returnedException (e : HTTPException)
deriving DecidableEq

/-- The literal parameters of the `service.files().list(...)` call in
`list_drive_files`. -/
def driveListParams : ListParams :=
  ⟨20, "nextPageToken, files(id, name, mimeType, webViewLink)"⟩

/-- Embedding of the `list_drive_files` handler from `main.py`, returning the
handler outcome together with the trace of Drive list calls it performed. -/
def list_drive_files (request : Request) (env : Env) (drive : DriveService) :
    ListFilesResult × List ListParams :=
  match get_credentials_from_request request env with
  | .error e => (.raised e, [])
  | .ok credentials =>
    match drive credentials driveListParams with
    | .success results =>
      let files := results.files.getD []
      (.ok [("files", files)], [driveListParams])
    | .httpError e => (.raised e, [driveListParams])
    | .failure e =>
      (.returnedException ⟨400, "Error calling Google Drive API: " ++ e⟩,
        [driveListParams])

/-- Embedding of the `health_check` handler: it returns the constant dict
`{"status": "ok"}`, which FastAPI serves with status 200. -/
def health_check : List (String × String) := [("status", "ok")]

/-- The HTTP response of `GET /health`: status code paired with the body. -/
def health_response : Nat × List (String × String) := (200, health_check)

/-- A full upstream Drive file resource: the four projected fields plus any
further fields the projection discards. -/
structure FullFile where
  id : String
  name : String
  mimeType : String
  webViewLink : String
  extra : List (String × String)
deriving DecidableEq

/-- The field projection requested via
`fields=files(id, name, mimeType, webViewLink)`. -/
def projectFile (f : FullFile) : FileEntry :=
  [("id", f.id), ("name", f.name), ("mimeType", f.mimeType),
   ("webViewLink", f.webViewLink)]

/-- Modelled from the spec: a mocked Drive client (spec, testable properties)
backed by a file store.  The Drive service itself is external to this
repository; per its contract the mock honours the `pageSize` bound and the
`fields` projection of the invoked list operation. -/
def mockDrive (store : List FullFile) : DriveService :=
  fun _ params => .success ⟨some ((store.take params.pageSize).map projectFile)⟩

/-! Test fixtures: a concrete environment carrying both OAuth variables, and
concrete requests used to instantiate the theorems below. -/

/-- An environment with both OAuth client variables set and non-empty. -/
def envOK : Env :=
  ⟨fun n =>
    if n == "GOOGLE_OAUTH_CLIENT_ID" then some "cid"
    else if n == "GOOGLE_OAUTH_CLIENT_SECRET" then some "sec"
    else none⟩

/-- An environment lacking `GOOGLE_OAUTH_CLIENT_ID`. -/
def envNoId : Env :=
  ⟨fun n => if n == "GOOGLE_OAUTH_CLIENT_SECRET" then some "sec" else none⟩

/-- An environment where `GOOGLE_OAUTH_CLIENT_ID` is set to the empty string. -/
def envEmptyId : Env :=
  ⟨fun n =>
    if n == "GOOGLE_OAUTH_CLIENT_ID" then some ""
    else if n == "GOOGLE_OAUTH_CLIENT_SECRET" then some "sec"
    else none⟩

/-- A two-file store instantiating the mocked-client theorem. -/
def storeW : List FullFile :=
  [⟨"1", "a.txt", "text/plain", "https://drive/a", [("size", "10")]⟩,
   ⟨"2", "b", "application/vnd.google-apps.folder", "https://drive/b", []⟩]

example : get_credentials_from_request ⟨some "Bearer tok123"⟩ envOK =
    .ok ⟨"tok123", "cid", "sec", SCOPES⟩ := rfl

example : get_credentials_from_request ⟨some "BEARER tok123"⟩ envOK =
    .ok ⟨"tok123", "cid", "sec", SCOPES⟩ := rfl

example : get_credentials_from_request ⟨some "Basic xyz"⟩ envOK =
    .error ⟨401, "Authorization header missing or invalid"⟩ := rfl

/-- A case-insensitive bearer prefix forces the header to be non-empty. -/
theorem beq_empty_false_of_bearer (s : String)
    (h : pyStartswith (pyLower s) "bearer " = true) : (s == "") = false := by
  by_cases hs : s = ""
  · subst hs
    exact absurd h (by decide)
  · simp [hs]

/-- C7: every `GET /health` request, whatever its headers and whatever the
process environment, gets the constant body `{"status": "ok"}` with HTTP
status 200; the handler reads no credential and has no side effect (it is a
closed constant). -/
theorem claim_C7_health_constant :
    ∀ (_ : Request) (_ : Env), health_response = (200, [("status", "ok")]) :=
  fun _ _ => rfl

/-- C2: a request with no `Authorization` header, or whose header fails the
case-insensitive `Bearer ` prefix test, is answered by raising the 401
`HTTPException` with detail `Authorization header missing or invalid`, with an
empty Drive-call trace (no upstream call attempted); the `except HTTPException`
clause re-raises it unchanged. -/
theorem claim_C2_auth_rejected_before_upstream (req : Request) (env : Env)
    (drive : DriveService)
    (h : req.authorization = none ∨
      ∃ s, req.authorization = some s ∧
        pyStartswith (pyLower s) "bearer " = false) :
    list_drive_files req env drive =
      (.raised ⟨401, "Authorization header missing or invalid"⟩, []) := by
  rcases h with h | ⟨s, hs, hpre⟩
  · simp [list_drive_files, get_credentials_from_request, h]
  · simp [list_drive_files, get_credentials_from_request, hs, hpre]

theorem claim_C2_witness :
    ((⟨none⟩ : Request).authorization = none ∨
      ∃ s, (⟨none⟩ : Request).authorization = some s ∧
        pyStartswith (pyLower s) "bearer " = false) ∧
    list_drive_files ⟨none⟩ envOK (mockDrive []) =
      (.raised ⟨401, "Authorization header missing or invalid"⟩, []) :=
  ⟨Or.inl rfl,
    claim_C2_auth_rejected_before_upstream ⟨none⟩ envOK (mockDrive [])
      (Or.inl rfl)⟩

/-- C4: a request with a well-formed case-insensitive `Bearer ` header, in an
environment where `GOOGLE_OAUTH_CLIENT_ID` or `GOOGLE_OAUTH_CLIENT_SECRET` is
absent, is answered by raising the 500 `HTTPException` with detail
`Server is missing Google OAuth client configuration`; credential extraction
fails (no credential is constructed) and the Drive-call trace is empty. -/
theorem claim_C4_missing_env_500 (req : Request) (env : Env)
    (drive : DriveService) (s : String)
    (hs : req.authorization = some s)
    (hpre : pyStartswith (pyLower s) "bearer " = true)
    (hmiss : env.getenv "GOOGLE_OAUTH_CLIENT_ID" = none ∨
      env.getenv "GOOGLE_OAUTH_CLIENT_SECRET" = none) :
    get_credentials_from_request req env =
      .error ⟨500, "Server is missing Google OAuth client configuration"⟩ ∧
    list_drive_files req env drive =
      (.raised ⟨500, "Server is missing Google OAuth client configuration"⟩,
        []) := by
  have hne := beq_empty_false_of_bearer s hpre
  have hcred : get_credentials_from_request req env =
      .error ⟨500, "Server is missing Google OAuth client configuration"⟩ := by
    rcases hmiss with hmiss | hmiss <;>
      simp [get_credentials_from_request, hs, hne, hpre, hmiss, pyTruthy]
  exact ⟨hcred, by simp [list_drive_files, hcred]⟩

theorem claim_C4_witness :
    (⟨some "Bearer tok"⟩ : Request).authorization = some "Bearer tok" ∧
    pyStartswith (pyLower "Bearer tok") "bearer " = true ∧
    envNoId.getenv "GOOGLE_OAUTH_CLIENT_ID" = none ∧
    list_drive_files ⟨some "Bearer tok"⟩ envNoId (mockDrive []) =
      (.raised ⟨500, "Server is missing Google OAuth client configuration"⟩,
        []) :=
  ⟨rfl, by decide, rfl,
    (claim_C4_missing_env_500 ⟨some "Bearer tok"⟩ envNoId (mockDrive [])
      "Bearer tok" rfl (by decide) (Or.inl rfl)).2⟩

/-- C9: an environment variable that is set to the empty string is treated
exactly like an absent one, because the code tests Python falsiness rather
than presence: with a well-formed `Bearer ` header and
`GOOGLE_OAUTH_CLIENT_ID` or `GOOGLE_OAUTH_CLIENT_SECRET` equal to `""`, the
request fails by raising the 500 configuration `HTTPException`. -/
theorem claim_C9_empty_env_var_500 (req : Request) (env : Env)
    (drive : DriveService) (s : String)
    (hs : req.authorization = some s)
    (hpre : pyStartswith (pyLower s) "bearer " = true)
    (hempty : env.getenv "GOOGLE_OAUTH_CLIENT_ID" = some "" ∨
      env.getenv "GOOGLE_OAUTH_CLIENT_SECRET" = some "") :
    get_credentials_from_request req env =
      .error ⟨500, "Server is missing Google OAuth client configuration"⟩ ∧
    list_drive_files req env drive =
      (.raised ⟨500, "Server is missing Google OAuth client configuration"⟩,
        []) := by
  have hne := beq_empty_false_of_bearer s hpre
  have hcred : get_credentials_from_request req env =
      .error ⟨500, "Server is missing Google OAuth client configuration"⟩ := by
    rcases hempty with hempty | hempty <;>
      simp [get_credentials_from_request, hs, hne, hpre, hempty, pyTruthy]
  exact ⟨hcred, by simp [list_drive_files, hcred]⟩

theorem claim_C9_witness :
    (⟨some "Bearer tok"⟩ : Request).authorization = some "Bearer tok" ∧
    pyStartswith (pyLower "Bearer tok") "bearer " = true ∧
    envEmptyId.getenv "GOOGLE_OAUTH_CLIENT_ID" = some "" ∧
    list_drive_files ⟨some "Bearer tok"⟩ envEmptyId (mockDrive []) =
      (.raised ⟨500, "Server is missing Google OAuth client configuration"⟩,
        []) :=
  ⟨rfl, by decide, rfl,
    (claim_C9_empty_env_var_500 ⟨some "Bearer tok"⟩ envEmptyId (mockDrive [])
      "Bearer tok" rfl (by decide) (Or.inl rfl)).2⟩

/-- C1: when credential extraction succeeds and the Drive list call raises an
exception that is not an `HTTPException`, the handler RETURNS (rather than
raises) an `HTTPException` value with status 400 and detail exactly
`Error calling Google Drive API: ` followed by the exception's message. -/
theorem claim_C1_upstream_error_returned_400 (req : Request) (env : Env)
    (drive : DriveService) (c : Credentials) (msg : String)
    (hok : get_credentials_from_request req env = .ok c)
    (hfail : drive c driveListParams = .failure msg) :
    list_drive_files req env drive =
      (.returnedException ⟨400, "Error calling Google Drive API: " ++ msg⟩,
        [driveListParams]) := by
  simp [list_drive_files, hok, hfail]

theorem claim_C1_witness :
    get_credentials_from_request ⟨some "Bearer tok"⟩ envOK =
      .ok ⟨"tok", "cid", "sec", SCOPES⟩ ∧
    (fun _ _ => DriveResult.failure "token expired" : DriveService)
      ⟨"tok", "cid", "sec", SCOPES⟩ driveListParams =
      .failure "token expired" ∧
    list_drive_files ⟨some "Bearer tok"⟩ envOK
      (fun _ _ => DriveResult.failure "token expired") =
      (.returnedException
        ⟨400, "Error calling Google Drive API: " ++ "token expired"⟩,
        [driveListParams]) :=
  ⟨rfl, rfl,
    claim_C1_upstream_error_returned_400 ⟨some "Bearer tok"⟩ envOK
      (fun _ _ => DriveResult.failure "token expired")
      ⟨"tok", "cid", "sec", SCOPES⟩ "token expired" rfl rfl⟩

/-- Inversion: a successfully constructed credential comes from a header that
passed the bearer check, and carries the split-off token, the two environment
values, and the fixed scope list. -/
theorem get_credentials_ok_inv (req : Request) (env : Env) (c : Credentials)
    (hok : get_credentials_from_request req env = .ok c) :
    ∃ s, req.authorization = some s ∧
      pyStartswith (pyLower s) "bearer " = true ∧
      c = ⟨bearerToken s, (env.getenv "GOOGLE_OAUTH_CLIENT_ID").getD "",
        (env.getenv "GOOGLE_OAUTH_CLIENT_SECRET").getD "", SCOPES⟩ := by
  rcases ha : req.authorization with _ | s
  · simp [get_credentials_from_request, ha] at hok
  · refine ⟨s, rfl, ?_⟩
    simp only [get_credentials_from_request, ha] at hok
    split at hok
    · exact absurd hok (by simp)
    · split at hok
      · exact absurd hok (by simp)
      · rename_i hcond _
        injection hok with h
        refine ⟨?_, h.symm⟩
        rcases hb : pyStartswith (pyLower s) "bearer " with _ | _
        · exact absurd (by simp [hb]) hcond
        · rfl

/-- C5: whenever the handler returns normally, the Drive list operation was
invoked exactly once, with `pageSize` 20 and the fields string requesting
`nextPageToken` plus the per-file fields `id`, `name`, `mimeType` and
`webViewLink`, and the returned body is a dict with the single key `files`. -/
theorem claim_C5_single_call_fixed_params (req : Request) (env : Env)
    (drive : DriveService) (body : List (String × List FileEntry))
    (trace : List ListParams)
    (h : list_drive_files req env drive = (.ok body, trace)) :
    trace = [driveListParams] ∧ driveListParams.pageSize = 20 ∧
    driveListParams.fields =
      "nextPageToken, files(id, name, mimeType, webViewLink)" ∧
    ∃ files, body = [("files", files)] := by
  unfold list_drive_files at h
  split at h
  · simp at h
  · split at h
    · rename_i r heq
      simp only [Prod.mk.injEq, ListFilesResult.ok.injEq] at h
      obtain ⟨h1, h2⟩ := h
      subst h1
      exact ⟨h2.symm, rfl, rfl, r.files.getD [], rfl⟩
    · simp at h
    · simp at h

theorem claim_C5_witness :
    list_drive_files ⟨some "Bearer tok"⟩ envOK (mockDrive []) =
      (.ok [("files", ([] : List FileEntry))], [driveListParams]) ∧
    ([driveListParams] = [driveListParams] ∧ driveListParams.pageSize = 20 ∧
      driveListParams.fields =
        "nextPageToken, files(id, name, mimeType, webViewLink)" ∧
      ∃ files, [("files", ([] : List FileEntry))] = [("files", files)]) :=
  ⟨rfl, claim_C5_single_call_fixed_params ⟨some "Bearer tok"⟩ envOK
    (mockDrive []) [("files", [])] [driveListParams] rfl⟩

/-- C8: when the upstream response dict lacks the `files` key entirely, the
handler does not fail: `results.get('files', [])` falls back to the empty
list and the handler returns `{"files": []}`. -/
theorem claim_C8_missing_files_key_empty (req : Request) (env : Env)
    (drive : DriveService) (c : Credentials)
    (hok : get_credentials_from_request req env = .ok c)
    (hresp : drive c driveListParams = .success ⟨none⟩) :
    list_drive_files req env drive = (.ok [("files", [])], [driveListParams]) := by
  simp [list_drive_files, hok, hresp]

theorem claim_C8_witness :
    get_credentials_from_request ⟨some "Bearer tok"⟩ envOK =
      .ok ⟨"tok", "cid", "sec", SCOPES⟩ ∧
    (fun _ _ => DriveResult.success ⟨none⟩ : DriveService)
      ⟨"tok", "cid", "sec", SCOPES⟩ driveListParams = .success ⟨none⟩ ∧
    list_drive_files ⟨some "Bearer tok"⟩ envOK
      (fun _ _ => DriveResult.success ⟨none⟩) =
      (.ok [("files", [])], [driveListParams]) :=
  ⟨rfl, rfl,
    claim_C8_missing_files_key_empty ⟨some "Bearer tok"⟩ envOK
      (fun _ _ => DriveResult.success ⟨none⟩) ⟨"tok", "cid", "sec", SCOPES⟩
      rfl rfl⟩

/-- C6: for a valid request and a mocked Drive client backed by a store of N
files (N ≤ 20) that honours the requested projection, the response body's
`files` array has exactly N entries and each entry carries exactly the four
projected fields, in order `id`, `name`, `mimeType`, `webViewLink`. -/
theorem claim_C6_mocked_store_projected (req : Request) (env : Env)
    (store : List FullFile) (c : Credentials)
    (hok : get_credentials_from_request req env = .ok c)
    (hN : store.length ≤ 20) :
    list_drive_files req env (mockDrive store) =
      (.ok [("files", store.map projectFile)], [driveListParams]) ∧
    (store.map projectFile).length = store.length ∧
    ∀ f ∈ store.map projectFile,
      f.map Prod.fst = ["id", "name", "mimeType", "webViewLink"] := by
  have htake : store.take 20 = store := List.take_of_length_le hN
  refine ⟨?_, by simp, ?_⟩
  · simp [list_drive_files, hok, mockDrive, driveListParams, htake]
  · intro f hf
    obtain ⟨x, _, rfl⟩ := List.mem_map.mp hf
    rfl

theorem claim_C6_witness :
    get_credentials_from_request ⟨some "Bearer tok"⟩ envOK =
      .ok ⟨"tok", "cid", "sec", SCOPES⟩ ∧
    storeW.length ≤ 20 ∧
    (list_drive_files ⟨some "Bearer tok"⟩ envOK (mockDrive storeW) =
      (.ok [("files", storeW.map projectFile)], [driveListParams]) ∧
    (storeW.map projectFile).length = storeW.length ∧
    ∀ f ∈ storeW.map projectFile,
      f.map Prod.fst = ["id", "name", "mimeType", "webViewLink"]) :=
  ⟨rfl, by decide,
    claim_C6_mocked_store_projected ⟨some "Bearer tok"⟩ envOK storeW
      ⟨"tok", "cid", "sec", SCOPES⟩ rfl (by decide)⟩

/-- C3 as stated is false: the hard-coded scope list handed to every
constructed credential has 24 entries, not 23.  At the concrete request
`Bearer tok` under `envOK` the constructed credential's scope list is
`SCOPES`, whose length is 24. -/
theorem claim_C3_counterexample :
    (get_credentials_from_request ⟨some "Bearer tok"⟩ envOK).map
      Credentials.scopes = .ok SCOPES ∧
    SCOPES.length = 24 ∧ SCOPES.length ≠ 23 :=
  ⟨rfl, rfl, by decide⟩

/-- C3 (amended): every constructed credential carries exactly the fixed
24-entry scope list `SCOPES` (the list enumerated in the spec's interface
section), independent of the request and the environment. -/
theorem claim_C3_scopes_fixed_24 (req : Request) (env : Env) (c : Credentials)
    (hok : get_credentials_from_request req env = .ok c) :
    c.scopes = SCOPES ∧ SCOPES.length = 24 := by
  obtain ⟨s, _, _, rfl⟩ := get_credentials_ok_inv req env c hok
  exact ⟨rfl, rfl⟩

theorem claim_C3_witness :
    get_credentials_from_request ⟨some "Bearer tok"⟩ envOK =
      .ok ⟨"tok", "cid", "sec", SCOPES⟩ ∧
    ((⟨"tok", "cid", "sec", SCOPES⟩ : Credentials).scopes = SCOPES ∧
      SCOPES.length = 24) :=
  ⟨rfl, claim_C3_scopes_fixed_24 ⟨some "Bearer tok"⟩ envOK
    ⟨"tok", "cid", "sec", SCOPES⟩ rfl⟩

/-- Dropping the no-space prefix of `l ++ ' ' :: r` stops exactly at the
space. -/
theorem dropWhile_ne_space_append (l r : List Char) (h : ∀ c ∈ l, c ≠ ' ') :
    (l ++ ' ' :: r).dropWhile (fun c => c ≠ ' ') = ' ' :: r := by
  induction l with
  | nil => simp [List.dropWhile_cons]
  | cons a l ih =>
    have ha : a ≠ ' ' := h a (List.mem_cons_self a l)
    rw [List.cons_append, List.dropWhile_cons, if_pos (by simpa using ha)]
    exact ih fun c hc => h c (List.mem_cons_of_mem a hc)

/-- Python `split(" ", 1)[1]` on a header whose part before the first space
contains no space returns exactly the suffix after that space. -/
theorem bearerToken_append (pre post : String)
    (h : ∀ c ∈ pre.data, c ≠ ' ') :
    bearerToken (pre ++ " " ++ post) = post := by
  unfold bearerToken pySplitOnce
  have hsp : (" " : String).data = [' '] := rfl
  have hdata : (pre ++ " " ++ post).data = pre.data ++ ' ' :: post.data := by
    simp [String.data_append, hsp]
  rw [hdata, dropWhile_ne_space_append pre.data post.data h]
  rfl

/-- C10: a header that passes the case-insensitive bearer check yields a
credential whose token is exactly the suffix of the header after the first
space, case preserved (so a header with two spaces after the scheme keeps the
extra leading space in the token). -/
theorem claim_C10_token_is_suffix_after_first_space (req : Request)
    (env : Env) (c : Credentials) (pre post : String)
    (hdr : req.authorization = some (pre ++ " " ++ post))
    (hpre : ∀ ch ∈ pre.data, ch ≠ ' ')
    (hok : get_credentials_from_request req env = .ok c) :
    c.token = post := by
  obtain ⟨s, hs, _, hc⟩ := get_credentials_ok_inv req env c hok
  obtain rfl : s = pre ++ " " ++ post := by
    have := hs.symm.trans hdr
    injection this
  rw [hc]
  exact bearerToken_append pre post hpre

theorem claim_C10_witness :
    (⟨some "Bearer  x"⟩ : Request).authorization =
      some ("Bearer" ++ " " ++ " x") ∧
    (∀ ch ∈ ("Bearer" : String).data, ch ≠ ' ') ∧
    get_credentials_from_request ⟨some "Bearer  x"⟩ envOK =
      .ok ⟨" x", "cid", "sec", SCOPES⟩ ∧
    (⟨" x", "cid", "sec", SCOPES⟩ : Credentials).token = " x" :=
  ⟨rfl, by decide, rfl,
    claim_C10_token_is_suffix_after_first_space ⟨some "Bearer  x"⟩ envOK
      ⟨" x", "cid", "sec", SCOPES⟩ "Bearer" " x" rfl (by decide) rfl⟩
